import Mathlib

/-!
Verification development for the Edtech-Mk1 quiz application (src/app.py).

The application is a single-file quiz-authoring and quiz-taking program over a
relational store.  This file gives a shallow embedding of the parts of the
program that the frozen claims are about: the Gemini response cleaning
(lines 83-89), the AI record normalization loop (lines 134-148), the CSV
row ingestion (lines 171-181), the paper deletion with declared cascades
(lines 24-48 and 193-195), the question listings (lines 226 and 303), the
student scoring path (lines 303-353) and the single-session AI ingestion
(lines 129-151).

Text is modelled as a list of characters.  Python string methods used by the
program (strip, upper, startswith, endswith, slicing) are embedded as
executable functions over lists of characters below.
-/

namespace EdtechMk1

/-- Text values of the program, modelled as lists of characters. -/
abbrev Str := List Char

/-- Python str.strip: remove whitespace from both ends.  (Embedded for the
ASCII whitespace that the relevant inputs can contain.) -/
def pyStrip (l : Str) : Str :=
  ((l.dropWhile Char.isWhitespace).reverse.dropWhile Char.isWhitespace).reverse

/-- Python str.upper, character by character (ASCII). -/
def pyUpper (l : Str) : Str := l.map Char.toUpper

/-- Python str.startswith over character lists. -/
def startsWithL : Str → Str → Bool
  | [], _ => true
  | _ :: _, [] => false
  | p :: ps, c :: cs => p == c && startsWithL ps cs

/-- Python str.endswith over character lists, via the reversed lists. -/
def endsWithL (s l : Str) : Bool := startsWithL s.reverse l.reverse

/-- The backtick character, code point 96. -/
def btick : Char := Char.ofNat 96

/-- The three-backtick Markdown fence, the literal sequence of three
backtick characters. -/
def fenceL : Str := btick :: btick :: btick :: []

/-- The seven characters of a backtick fence followed by the word json. -/
def jsonFenceL : Str := btick :: btick :: btick :: 'j' :: 's' :: 'o' :: 'n' :: []

/-- Response cleaning of parse_questions_with_gemini, src/app.py lines 83-87:
strip the text, drop a leading json fence (7 characters) or a bare fence
(3 characters), then drop a trailing fence (last 3 characters). -/
def cleanResponseText (t : Str) : Str :=
  let c0 := pyStrip t
  let c1 :=
    if startsWithL jsonFenceL c0 then c0.drop 7
    else if startsWithL fenceL c0 then c0.drop 3
    else c0
  if endsWithL fenceL c1 then c1.take (c1.length - 3) else c1

/-!
Data model: the three tables created by init_db (src/app.py lines 12-49).
A database state is the list of rows of each table, in physical row order.
Timestamps and the analytics display are outside the claims and omitted.
-/

/-- A row of the question_papers table (src/app.py lines 15-21). -/
structure Paper where
  id : Nat
  title : Str
deriving DecidableEq

/-- A row of the questions table (src/app.py lines 24-35). -/
structure Question where
  id : Nat
  paper_id : Nat
  question_text : Str
  option_a : Str
  option_b : Str
  option_c : Str
  option_d : Str
  correct_option : Str
deriving DecidableEq

/-- A row of the exam_results table (src/app.py lines 38-48).  The percentage
column is modelled as an exact rational. -/
structure ResultRow where
  paper_id : Nat
  student_name : Str
  score : Nat
  total_questions : Nat
  percentage : ℚ
deriving DecidableEq

/-- A database state: the rows of the three tables, each list in the
physical row order of the backing store. -/
structure DB where
  papers : List Paper
  questions : List Question
  results : List ResultRow
deriving DecidableEq

/-!
AI ingestion records (src/app.py lines 134-148).  A parsed JSON object is
modelled by which of the six expected keys are present; q.get(k, d) is
Option.getD.
-/

/-- A record of the JSON array returned by the model: each expected key is
present (some) or absent (none). -/
structure AiRecord where
  question_text : Option Str
  option_a : Option Str
  option_b : Option Str
  option_c : Option Str
  option_d : Option Str
  correct_option : Option Str
deriving DecidableEq

/-- Column values carried by one INSERT INTO questions statement. -/
structure QParams where
  question_text : Str
  option_a : Str
  option_b : Str
  option_c : Str
  option_d : Str
  correct_option : Str
deriving DecidableEq

/-- The correct_option normalization of the AI path, src/app.py lines
142-145: co = q.get(key, "A").strip().upper(); if len(co) > 1: co = co[0]. -/
def ai_correct_option (v : Option Str) : Str :=
  let co := pyUpper (pyStrip (v.getD ('A' :: [])))
  if co.length > 1 then co.take 1 else co

/-- Per-record normalization of the AI ingestion loop, src/app.py lines
134-148: every missing key is replaced via .get with its placeholder, and
correct_option is additionally stripped, uppercased and truncated. -/
def normalizeRecord (r : AiRecord) : QParams :=
  { question_text := r.question_text.getD "Question text missing".data
    option_a := r.option_a.getD ('-' :: [])
    option_b := r.option_b.getD ('-' :: [])
    option_c := r.option_c.getD ('-' :: [])
    option_d := r.option_d.getD ('-' :: [])
    correct_option := ai_correct_option r.correct_option }

/-- The AI record loop never throws: modelled as an Except that is always ok,
because every field access in src/app.py lines 136-142 goes through .get. -/
def aiRecordParams (r : AiRecord) : Except Str QParams := Except.ok (normalizeRecord r)

/-!
CSV import (src/app.py lines 171-181).  A CSV row is modelled by which of
the six expected columns carry a value; the Python access row[k] raises
KeyError when the column is missing, modelled as Except.error naming the
key.
-/

/-- A CSV row: each expected column is present (some) or missing (none). -/
structure CsvRow where
  question_text : Option Str
  option_a : Option Str
  option_b : Option Str
  option_c : Option Str
  option_d : Option Str
  correct_option : Option Str
deriving DecidableEq

/-- Python dictionary style access row[key]: the value when present, a
KeyError naming the key when absent. -/
def rowGet (key : Str) (v : Option Str) : Except Str Str :=
  match v with
  | some s => Except.ok s
  | none => Except.error key

/-- The correct_option treatment of the CSV path, src/app.py line 178:
str(row[key]).upper() and nothing else. -/
def csv_correct_option (v : Str) : Str := pyUpper v

/-- One CSV row turned into INSERT parameters, src/app.py lines 177-178.
Every column is read with a raising access; only correct_option is
transformed, by upper-casing. -/
def csvRowParams (r : CsvRow) : Except Str QParams := do
  let q ← rowGet "question_text".data r.question_text
  let oa ← rowGet "option_a".data r.option_a
  let ob ← rowGet "option_b".data r.option_b
  let oc ← rowGet "option_c".data r.option_c
  let od ← rowGet "option_d".data r.option_d
  let co ← rowGet "correct_option".data r.correct_option
  pure { question_text := q, option_a := oa, option_b := ob, option_c := oc,
         option_d := od, correct_option := csv_correct_option co }

/-!
Scoring engine (src/app.py lines 303-353).  The submission map ans maps a
question id to the submitted option letter; the loop at lines 323-325 counts
a question when its id is in the map and the mapped letter equals the stored
correct_option.  Python round(x, 2) is round-half-even at two decimals,
embedded over exact rationals.
-/

/-- The submission map built by the exam form: question id to the submitted
option letter. -/
abbrev AnswerMap := List (Nat × Str)

/-- Round-half-even to the nearest integer, the tie rule of Python round. -/
def pyRoundHalfEven (q : ℚ) : ℤ :=
  let n := Int.floor q
  let frac := q - (n : ℚ)
  if frac < 1 / 2 then n
  else if 1 / 2 < frac then n + 1
  else if n % 2 = 0 then n else n + 1

/-- Python round(x, 2) over exact rationals. -/
def pyRound2 (x : ℚ) : ℚ := (pyRoundHalfEven (x * 100) : ℚ) / 100

/-- The score loop of src/app.py lines 321-325: start at zero and add one for
each row whose id is a key of the map and whose mapped letter equals the
stored correct_option. -/
def computeScore (qs : List Question) (ans : AnswerMap) : Nat :=
  qs.foldl
    (fun acc q =>
      match List.lookup q.id ans with
      | some v => if v = q.correct_option then acc + 1 else acc
      | none => acc)
    0

/-- Outcome of one student submission pass. -/
inductive SubmitOutcome where
  /-- The early return at src/app.py lines 304-306: the exam has no
  questions, an informational message is shown and nothing is computed. -/
  | noQuestions : SubmitOutcome
  /-- A result row was computed and persisted (lines 320-343). -/
  | saved (r : ResultRow) : SubmitOutcome
  /-- An uncaught exception, such as a division by zero. -/
  | crash : SubmitOutcome
deriving DecidableEq

/-- The scoring block of src/app.py lines 320-343 taken on its own: with
total = 0 the expression (score/total)*100 at line 327 raises a division by
zero, otherwise a result row is computed. -/
def scoring_block (pid : Nat) (name : Str) (qs : List Question) (ans : AnswerMap) :
    SubmitOutcome :=
  if qs.length = 0 then SubmitOutcome.crash
  else
    SubmitOutcome.saved
      { paper_id := pid
        student_name := name
        score := computeScore qs ans
        total_questions := qs.length
        percentage := pyRound2 (((computeScore qs ans : ℚ) / (qs.length : ℚ)) * 100) }

/-- The student submission path of src/app.py lines 303-343: the question
rows are fetched, an empty set returns early with an informational message
(lines 304-306), otherwise the scoring block runs. -/
def student_submit (pid : Nat) (name : Str) (qs : List Question) (ans : AnswerMap) :
    SubmitOutcome :=
  if qs.isEmpty then SubmitOutcome.noQuestions
  else scoring_block pid name qs ans

/-!
Paper deletion (src/app.py line 194) with the cascades declared in the
schema (ON DELETE CASCADE at lines 27 and 41): the paper row goes, and the
database engine removes every questions row and every exam_results row whose
paper_id references it.
-/

/-- DELETE FROM question_papers WHERE id = pid, with the declared cascades
to the questions and exam_results tables. -/
def deletePaper (db : DB) (pid : Nat) : DB :=
  { papers := db.papers.filter (fun p => decide (¬ p.id = pid))
    questions := db.questions.filter (fun q => decide (¬ q.paper_id = pid))
    results := db.results.filter (fun r => decide (¬ r.paper_id = pid)) }

/-!
Question listings.  The teacher edit tab (src/app.py line 226) runs
SELECT ... WHERE paper_id = pid ORDER BY id; the student page (line 303)
runs SELECT ... WHERE paper_id = pid with no ORDER BY, which returns the
rows in whatever physical order the table currently has.
-/

/-- Ordered insertion by ascending id, the building block of the embedded
ORDER BY id. -/
def insertById (q : Question) : List Question → List Question
  | [] => q :: []
  | x :: xs => if q.id ≤ x.id then q :: x :: xs else x :: insertById q xs

/-- Stable sort by ascending id, modelling ORDER BY id. -/
def sortById (l : List Question) : List Question := l.foldr insertById []

/-- The list is in ascending id order. -/
def idSorted (l : List Question) : Prop :=
  List.Pairwise (fun a b => a.id ≤ b.id) l

/-- The teacher edit tab listing, src/app.py line 226:
SELECT * FROM questions WHERE paper_id = pid ORDER BY id. -/
def teacherListQuestions (db : DB) (pid : Nat) : List Question :=
  sortById (db.questions.filter (fun q => decide (q.paper_id = pid)))

/-- The student exam listing, src/app.py line 303:
SELECT * FROM questions WHERE paper_id = pid, with no ORDER BY: the rows
come back in the physical order of the table. -/
def studentListQuestions (db : DB) (pid : Nat) : List Question :=
  db.questions.filter (fun q => decide (q.paper_id = pid))

/-!
The AI ingestion session (src/app.py lines 129-151).  The block opens one
database session, inserts the paper row (RETURNING its new serial id),
inserts one questions row per normalized record, and calls commit once at
the end.  A session whose scope exits before the commit persists nothing;
statements executed inside the session only become visible at the commit.
The serial ids the engine would assign are passed in explicitly.
-/

/-- One statement executed inside the ingestion session. -/
inductive SessionOp where
  /-- INSERT INTO question_papers (line 130). -/
  | insertPaper (p : Paper) : SessionOp
  /-- INSERT INTO questions (lines 147-148). -/
  | insertQuestion (q : Question) : SessionOp
  /-- s.commit() (line 151). -/
  | commitOp : SessionOp
deriving DecidableEq

/-- True exactly on the commit statement. -/
def isCommit : SessionOp → Bool
  | SessionOp.commitOp => true
  | SessionOp.insertPaper _ => false
  | SessionOp.insertQuestion _ => false

/-- Effect of one insert statement on the working state of the session. -/
def applySessionOp (pending : DB) (op : SessionOp) : DB :=
  match op with
  | SessionOp.insertPaper p => { pending with papers := pending.papers ++ (p :: []) }
  | SessionOp.insertQuestion q =>
      { pending with questions := pending.questions ++ (q :: []) }
  | SessionOp.commitOp => pending

/-- Run a session: committed is the last durable state, pending the working
state.  commit publishes the working state; closing the session (end of the
statement list, also by an exception) leaves only the committed state. -/
def runSess (committed pending : DB) : List SessionOp → DB
  | [] => committed
  | SessionOp.commitOp :: rest => runSess pending pending rest
  | SessionOp.insertPaper p :: rest =>
      runSess committed (applySessionOp pending (SessionOp.insertPaper p)) rest
  | SessionOp.insertQuestion q :: rest =>
      runSess committed (applySessionOp pending (SessionOp.insertQuestion q)) rest

/-- The insert statements of the ingestion block, src/app.py lines 129-148:
the paper insert followed by one question insert per record, with the serial
ids newId and qidBase, qidBase+1, ... the engine assigns. -/
def aiInsertOps (newId qidBase : Nat) (title : Str) (data : List AiRecord) :
    List SessionOp :=
  SessionOp.insertPaper { id := newId, title := title } ::
    data.enum.map (fun p =>
      SessionOp.insertQuestion
        { id := qidBase + p.fst
          paper_id := newId
          question_text := (normalizeRecord p.snd).question_text
          option_a := (normalizeRecord p.snd).option_a
          option_b := (normalizeRecord p.snd).option_b
          option_c := (normalizeRecord p.snd).option_c
          option_d := (normalizeRecord p.snd).option_d
          correct_option := (normalizeRecord p.snd).correct_option })

/-- The complete statement list of the ingestion block, src/app.py lines
129-151: all inserts, then one final commit (line 151). -/
def aiIngestOps (newId qidBase : Nat) (title : Str) (data : List AiRecord) :
    List SessionOp :=
  aiInsertOps newId qidBase title data ++ (SessionOp.commitOp :: [])

/-- A full run of the ingestion session on a database state. -/
def sessionRun (db : DB) (ops : List SessionOp) : DB := runSess db db ops

/-- A run in which an exception is raised at statement index k: the
statements before k executed, then the session closes without reaching any
later statement. -/
def sessionRunFailAt (db : DB) (ops : List SessionOp) (k : Nat) : DB :=
  runSess db db (ops.take k)

/-!
The AI create flow (src/app.py lines 120-152 together with
parse_questions_with_gemini, lines 59-93).  The adapter returns None after
showing an error when the API key is missing (lines 61-63) or when any
exception, in particular a JSON parse failure, occurs (lines 91-93).  The
caller only touches the database when the returned value is truthy
(line 128): a None and also an empty list lead to no statement at all.
-/

/-- Outcome of the call to the model and the JSON parse. -/
inductive AiOutcome where
  /-- GOOGLE_API_KEY absent from the secrets (lines 61-63). -/
  | missingKey : AiOutcome
  /-- An exception, in particular json.loads failing (lines 91-93). -/
  | parseFailure : AiOutcome
  /-- A successfully parsed list of records (line 89). -/
  | parsed (data : List AiRecord) : AiOutcome
deriving DecidableEq

/-- The value parse_questions_with_gemini returns: None on both failure
outcomes, the parsed list otherwise. -/
def parseAdapterResult : AiOutcome → Option (List AiRecord)
  | AiOutcome.missingKey => none
  | AiOutcome.parseFailure => none
  | AiOutcome.parsed data => some data

/-- Whether the adapter showed a user-visible error (st.error at line 62 or
line 92). -/
def adapterShowsError : AiOutcome → Bool
  | AiOutcome.missingKey => true
  | AiOutcome.parseFailure => true
  | AiOutcome.parsed _ => false

/-- The whole AI create flow: parse first, then, only when the result is a
non-empty list (the truthiness test at line 128), run the ingestion
session.  Returns the resulting database state and whether an error message
was shown. -/
def aiIngestFlow (db : DB) (newId qidBase : Nat) (title : Str) (o : AiOutcome) :
    DB × Bool :=
  match parseAdapterResult o with
  | none => (db, adapterShowsError o)
  | some data =>
      if data.isEmpty then (db, adapterShowsError o)
      else (sessionRun db (aiIngestOps newId qidBase title data), adapterShowsError o)

/-!
Concrete fixtures used by the witnesses and counterexamples below.
-/

/-- A model response body can only be a JSON value, which after the leading
fence starts with a bracket, a digit, a quote or whitespace, never with the
letter j: this decidable side condition captures that. -/
def headNotJson : Str → Bool
  | [] => true
  | c :: _ => !(c == 'j')

/-- The question of the spec scenario: 2+2 with options 3, 4, 5, 6 and
correct option B. -/
def mathQ : Question :=
  { id := 1
    paper_id := 1
    question_text := "2+2?".data
    option_a := "3".data
    option_b := "4".data
    option_c := "5".data
    option_d := "6".data
    correct_option := "B".data }

/-- The record of the spec example: every field present except
correct_option. -/
def recNoCorrectOption : AiRecord :=
  { question_text := some "Q1".data
    option_a := some "x".data
    option_b := some "y".data
    option_c := some "z".data
    option_d := some "w".data
    correct_option := none }

/-- A parsed record with every expected key absent. -/
def recAllMissing : AiRecord :=
  { question_text := none, option_a := none, option_b := none,
    option_c := none, option_d := none, correct_option := none }

/-- A CSV row with every column present except correct_option. -/
def csvRowNoCo : CsvRow :=
  { question_text := some "q".data
    option_a := some "a".data
    option_b := some "b".data
    option_c := some "c".data
    option_d := some "d".data
    correct_option := none }

/-- A question row with id 1 of paper 1. -/
def qRow1 : Question :=
  { id := 1, paper_id := 1, question_text := "one".data,
    option_a := "-".data, option_b := "-".data, option_c := "-".data,
    option_d := "-".data, correct_option := "A".data }

/-- A question row with id 2 of paper 1. -/
def qRow2 : Question :=
  { id := 2, paper_id := 1, question_text := "two".data,
    option_a := "-".data, option_b := "-".data, option_c := "-".data,
    option_d := "-".data, correct_option := "A".data }

/-- A database state in which the physical order of the questions table is
id 2 before id 1.  Such a state arises after the UPDATE at src/app.py line
241 rewrites the row with id 1, which relocates it to the end of the
table heap. -/
def dbOutOfOrder : DB :=
  { papers := { id := 1, title := "P".data } :: []
    questions := qRow2 :: qRow1 :: []
    results := [] }

/-- The empty database state. -/
def dbEmpty : DB := { papers := [], questions := [], results := [] }

/-!
Helper lemmas.
-/

/-- Filtering for a key value after filtering it away yields nothing. -/
theorem filter_excluded_eq_nil {α : Type} (f : α → Nat) (P : Nat) (l : List α) :
    (l.filter (fun a => decide (¬ f a = P))).filter (fun a => decide (f a = P)) = [] := by
  induction l with
  | nil => rfl
  | cons a t ih =>
      by_cases h : f a = P
      · simp [List.filter_cons, h, ih]
      · simp [List.filter_cons, h, ih]

/-- A list of length at most one is its own one-element prefix. -/
theorem take_one_of_not_length_gt_one {α : Type} (l : List α) (h : ¬ l.length > 1) :
    l.take 1 = l := by
  cases l with
  | nil => rfl
  | cons a t =>
      cases t with
      | nil => rfl
      | cons b t2 => exact absurd (by simp) h

/-- The score fold of the submission loop counts exactly the rows whose id
is mapped to the stored correct option, for any starting accumulator. -/
theorem score_foldl_general (ans : AnswerMap) (l : List Question) (n : Nat) :
    l.foldl
      (fun acc q =>
        match List.lookup q.id ans with
        | some v => if v = q.correct_option then acc + 1 else acc
        | none => acc)
      n
    = n + (l.filter (fun q => decide (List.lookup q.id ans = some q.correct_option))).length := by
  induction l generalizing n with
  | nil => simp
  | cons q t ih =>
      rw [List.foldl_cons, List.filter_cons]
      cases hl : List.lookup q.id ans with
      | none =>
          rw [ih]
          simp
      | some v =>
          rw [ih]
          by_cases hv : v = q.correct_option
          · subst hv
            simp
            ring
          · simp [hv]

/-- The score of the submission loop is the number of questions whose
submitted letter equals the stored correct option. -/
theorem computeScore_eq_filter_length (qs : List Question) (ans : AnswerMap) :
    computeScore qs ans
    = (qs.filter (fun q => decide (List.lookup q.id ans = some q.correct_option))).length := by
  simpa using score_foldl_general ans qs 0

/-- Membership in an ordered insertion. -/
theorem mem_insertById {x q : Question} {l : List Question} :
    x ∈ insertById q l ↔ x = q ∨ x ∈ l := by
  induction l with
  | nil => simp [insertById]
  | cons a t ih =>
      by_cases h : q.id ≤ a.id
      · simp [insertById, h]
      · simp [insertById, h, ih]
        tauto

/-- Ordered insertion preserves ascending id order. -/
theorem idSorted_insertById (q : Question) (l : List Question) (h : idSorted l) :
    idSorted (insertById q l) := by
  induction l with
  | nil => simp [insertById, idSorted]
  | cons a t ih =>
      have ha := List.pairwise_cons.mp h
      by_cases hle : q.id ≤ a.id
      · simp only [insertById, if_pos hle]
        refine List.Pairwise.cons ?_ h
        intro b hb
        rcases List.mem_cons.mp hb with rfl | hbt
        · exact hle
        · exact Nat.le_trans hle (ha.1 b hbt)
      · simp only [insertById, if_neg hle]
        have hq : a.id ≤ q.id := Nat.le_of_not_le hle
        refine List.Pairwise.cons ?_ (ih ha.2)
        intro b hb
        rcases mem_insertById.mp hb with rfl | hbt
        · exact hq
        · exact ha.1 b hbt

/-- The embedded ORDER BY id produces an ascending id sequence. -/
theorem idSorted_sortById (l : List Question) : idSorted (sortById l) := by
  induction l with
  | nil => simp [sortById, idSorted]
  | cons a t ih => exact idSorted_insertById a (sortById t) ih

/-- Sorting by id neither adds nor removes rows. -/
theorem mem_sortById {x : Question} {l : List Question} :
    x ∈ sortById l ↔ x ∈ l := by
  induction l with
  | nil => simp [sortById]
  | cons a t ih =>
      show x ∈ insertById a (sortById t) ↔ _
      rw [mem_insertById, ih]
      simp

/-- A session that executes no commit statement leaves the committed state
untouched, whatever its pending work. -/
theorem runSess_no_commit (committed : DB) (ops : List SessionOp) :
    ∀ pending : DB, (∀ op ∈ ops, isCommit op = false) →
      runSess committed pending ops = committed := by
  induction ops with
  | nil => intro pending _; rfl
  | cons op rest ih =>
      intro pending h
      cases op with
      | commitOp => exact absurd (h SessionOp.commitOp (by simp)) (by simp [isCommit])
      | insertPaper p =>
          exact ih _ (fun o ho => h o (List.mem_cons_of_mem _ ho))
      | insertQuestion q =>
          exact ih _ (fun o ho => h o (List.mem_cons_of_mem _ ho))

/-- Every insert statement of the ingestion block is an insert, never a
commit. -/
theorem aiInsertOps_no_commit (newId qidBase : Nat) (title : Str)
    (data : List AiRecord) :
    ∀ op ∈ aiInsertOps newId qidBase title data, isCommit op = false := by
  intro op hop
  rcases List.mem_cons.mp hop with rfl | hmem
  · rfl
  · rcases List.mem_map.mp hmem with ⟨p, _, rfl⟩
    rfl

/-- Dropping leading whitespace does nothing to a text headed by a
backtick. -/
theorem dropWhile_ws_cons_btick (l : Str) :
    List.dropWhile Char.isWhitespace (btick :: l) = btick :: l := by
  rw [List.dropWhile_cons]
  simp [show Char.isWhitespace btick = false from by decide]

/-- Stripping does nothing to a text that begins with a backtick and ends
with the backtick fence. -/
theorem pyStrip_btick_wrap (pre B : Str) :
    pyStrip ((btick :: pre) ++ B ++ fenceL) = (btick :: pre) ++ B ++ fenceL := by
  have hX : (btick :: pre) ++ B ++ fenceL = btick :: (pre ++ B ++ fenceL) := by
    simp only [List.cons_append]
  have hfront : List.dropWhile Char.isWhitespace ((btick :: pre) ++ B ++ fenceL)
      = (btick :: pre) ++ B ++ fenceL := by
    rw [hX, dropWhile_ws_cons_btick, ← hX]
  have hrev : ((btick :: pre) ++ B ++ fenceL).reverse
      = btick :: (btick :: btick :: ((btick :: pre) ++ B).reverse) := by
    rw [List.reverse_append]
    rfl
  have hback : List.dropWhile Char.isWhitespace (((btick :: pre) ++ B ++ fenceL).reverse)
      = ((btick :: pre) ++ B ++ fenceL).reverse := by
    rw [hrev, dropWhile_ws_cons_btick, ← hrev]
  unfold pyStrip
  rw [hfront, hback, List.reverse_reverse]

/-!
Claim theorems.
-/

/-- Claim C4: stripping the Markdown code-fence wrapping before JSON parsing
makes a fenced response carry exactly the body text: for every body, the
cleaned json-fenced wrapping equals the body, and the cleaned bare-fenced
wrapping equals the body whenever the body does not itself begin with the
letter j (a JSON array never does); hence any parse of the cleaned fenced
response returns exactly the parse of the unwrapped array. -/
theorem c4_fence_stripping (B : Str) :
    cleanResponseText (jsonFenceL ++ B ++ fenceL) = B ∧
    (headNotJson B = true → cleanResponseText (fenceL ++ B ++ fenceL) = B) := by
  have hend : endsWithL fenceL (B ++ fenceL) = true := by
    simp [endsWithL, fenceL, startsWithL, List.reverse_append]
  have htake : (B ++ fenceL).take (B.length + fenceL.length - 3) = B := by
    have hlen : B.length + fenceL.length - 3 = B.length := by simp [fenceL]
    rw [hlen]
    exact List.take_left B fenceL
  constructor
  · have hstrip := pyStrip_btick_wrap (btick :: btick :: 'j' :: 's' :: 'o' :: 'n' :: []) B
    have hstart : startsWithL jsonFenceL (jsonFenceL ++ (B ++ fenceL)) = true := by
      simp [jsonFenceL, startsWithL, List.cons_append]
    have hdrop : (jsonFenceL ++ (B ++ fenceL)).drop 7 = B ++ fenceL :=
      List.drop_left jsonFenceL (B ++ fenceL)
    simp only [cleanResponseText]
    rw [show pyStrip (jsonFenceL ++ B ++ fenceL) = jsonFenceL ++ B ++ fenceL from hstrip]
    simp [hstart, hdrop, hend, htake]
  · intro hB
    have hstrip := pyStrip_btick_wrap (btick :: btick :: []) B
    have hnostart : startsWithL jsonFenceL (fenceL ++ (B ++ fenceL)) = false := by
      cases B with
      | nil => decide
      | cons c t =>
          have hc : (c == 'j') = false := by simpa [headNotJson] using hB
          have hne : ('j' == c) = false := by
            have : ¬ c = 'j' := by simpa using hc
            simp [BEq.beq]
            exact fun he => this he.symm
          simp [jsonFenceL, fenceL, startsWithL, List.cons_append, hne]
    have hstart : startsWithL fenceL (fenceL ++ (B ++ fenceL)) = true := by
      simp [fenceL, startsWithL, List.cons_append]
    have hdrop : (fenceL ++ (B ++ fenceL)).drop 3 = B ++ fenceL :=
      List.drop_left fenceL (B ++ fenceL)
    simp only [cleanResponseText]
    rw [show pyStrip (fenceL ++ B ++ fenceL) = fenceL ++ B ++ fenceL from hstrip]
    simp [hnostart, hstart, hdrop, hend, htake]

/-- Claim C4 witness: the concrete three-character array body wrapped in
bare fences cleans to exactly the body. -/
theorem c4_witness :
    headNotJson ('[' :: '1' :: ']' :: []) = true ∧
    cleanResponseText (fenceL ++ ('[' :: '1' :: ']' :: []) ++ fenceL)
      = '[' :: '1' :: ']' :: [] :=
  ⟨by decide, (c4_fence_stripping ('[' :: '1' :: ']' :: [])).2 (by decide)⟩

/-- Claim C2: when the scoring path is invoked with a question set of size
zero it does not crash and does not produce an undefined result; the empty
set is answered with the defined invalid-input signal (the early return with
the informational message at src/app.py lines 304-306), and the submission
path never reaches the division of line 327 with total equal to zero, so no
run of the path ends in the crash outcome. -/
theorem c2_zero_questions_signal (pid : Nat) (name : Str) (ans : AnswerMap) :
    student_submit pid name [] ans = SubmitOutcome.noQuestions ∧
    ∀ qs : List Question,
      (∃ r, student_submit pid name qs ans = SubmitOutcome.saved r) ∨
      student_submit pid name qs ans = SubmitOutcome.noQuestions := by
  constructor
  · rfl
  · intro qs
    cases qs with
    | nil => exact Or.inr rfl
    | cons q t =>
        exact Or.inl ⟨_, rfl⟩

/-- Claim C3 (amended): the AI-ingestion path defaults an absent
correct_option to A and stores the stripped, uppercased value truncated to
its first character; the CSV-import path only uppercases the value, with no
truncation and no default, and in particular stores b as B. -/
theorem c3_correct_option_normalization :
    ai_correct_option none = 'A' :: [] ∧
    (∀ v : Str, ai_correct_option (some v) = (pyUpper (pyStrip v)).take 1) ∧
    csv_correct_option ('b' :: []) = 'B' :: [] := by
  refine ⟨by decide, ?_, by decide⟩
  intro v
  unfold ai_correct_option
  simp only [Option.getD_some]
  by_cases h : (pyUpper (pyStrip v)).length > 1
  · rw [if_pos h]
  · rw [if_neg h, take_one_of_not_length_gt_one _ h]

/-- Claim C3 counterexample: the CSV-import path stores the two-letter value
bc as BC, a two-character value, so the persisted correct_option is not
truncated to a single uppercase letter as the claim states. -/
theorem c3_counterexample :
    csv_correct_option ('b' :: 'c' :: []) = 'B' :: 'C' :: [] ∧
    ('B' :: 'C' :: []).length = 2 := by
  constructor
  · decide
  · rfl

/-- Claim C5: in the AI ingestion loop every missing field is replaced by
its placeholder before insertion: a dash for each option, the text
placeholder for question_text, and A for correct_option; in particular the
record of the spec example, which omits only correct_option, is imported
with correct_option A. -/
theorem c5_missing_field_defaults (r : AiRecord) :
    (r.question_text = none →
      (normalizeRecord r).question_text = "Question text missing".data) ∧
    (r.option_a = none → (normalizeRecord r).option_a = '-' :: []) ∧
    (r.option_b = none → (normalizeRecord r).option_b = '-' :: []) ∧
    (r.option_c = none → (normalizeRecord r).option_c = '-' :: []) ∧
    (r.option_d = none → (normalizeRecord r).option_d = '-' :: []) ∧
    (r.correct_option = none → (normalizeRecord r).correct_option = 'A' :: []) ∧
    (normalizeRecord recNoCorrectOption).correct_option = 'A' :: [] := by
  refine ⟨?_, ?_, ?_, ?_, ?_, ?_, by decide⟩ <;>
    intro h <;> simp [normalizeRecord, h] <;> decide

/-- Claim C5 witness: the all-missing record is imported with every
placeholder. -/
theorem c5_witness :
    (normalizeRecord recAllMissing).question_text = "Question text missing".data ∧
    (normalizeRecord recAllMissing).option_a = '-' :: [] ∧
    (normalizeRecord recAllMissing).option_b = '-' :: [] ∧
    (normalizeRecord recAllMissing).option_c = '-' :: [] ∧
    (normalizeRecord recAllMissing).option_d = '-' :: [] ∧
    (normalizeRecord recAllMissing).correct_option = 'A' :: [] := by
  have h := c5_missing_field_defaults recAllMissing
  exact ⟨h.1 rfl, h.2.1 rfl, h.2.2.1 rfl, h.2.2.2.1 rfl, h.2.2.2.2.1 rfl,
    h.2.2.2.2.2.1 rfl⟩

/-- Claim C6 (amended): the AI import path never raises on a record with
missing fields and substitutes defaults, while the CSV import path
substitutes no defaults: a row whose correct_option column is missing makes
the row conversion raise a key error, which the handler at src/app.py line
181 surfaces as a user-visible error, aborting the upload. -/
theorem c6_import_paths_missing_fields :
    (∀ r : AiRecord, ∃ p, aiRecordParams r = Except.ok p) ∧
    (∀ row : CsvRow, row.correct_option = none →
      ∃ e, csvRowParams row = Except.error e) := by
  constructor
  · intro r
    exact ⟨normalizeRecord r, rfl⟩
  · intro row h
    rcases row with ⟨q, a, b, c, d, co⟩
    cases h
    cases q <;> cases a <;> cases b <;> cases c <;> cases d <;> exact ⟨_, rfl⟩

/-- Claim C6 witness: a concrete CSV row with every column present except
correct_option is rejected with an error by the row conversion. -/
theorem c6_witness : ∃ e, csvRowParams csvRowNoCo = Except.error e :=
  c6_import_paths_missing_fields.2 csvRowNoCo rfl

/-- Claim C6 counterexample: the CSV row of the witness raises a key error
naming correct_option instead of substituting the default A, so the
CSV-import path does not substitute defaults for missing fields. -/
theorem c6_counterexample :
    csvRowParams csvRowNoCo = Except.error "correct_option".data := rfl

/-- Claim C7 (amended): on a JSON parse failure or missing API credentials
the adapter returns None after showing a user-visible error, and the caller
then touches the database in no way: parsing happens before any insert, so a
parse failure leaves neither a paper row nor any question rows. -/
theorem c7_parse_failure_aborts (db : DB) (newId qidBase : Nat) (title : Str)
    (o : AiOutcome) (h : parseAdapterResult o = none) :
    aiIngestFlow db newId qidBase title o = (db, true) := by
  cases o with
  | missingKey => rfl
  | parseFailure => rfl
  | parsed data => simp [parseAdapterResult] at h

/-- Claim C7 witness: the parse-failure outcome at a concrete database. -/
theorem c7_witness :
    parseAdapterResult AiOutcome.parseFailure = none ∧
    aiIngestFlow dbEmpty 1 1 ('T' :: []) AiOutcome.parseFailure = (dbEmpty, true) :=
  ⟨rfl, c7_parse_failure_aborts dbEmpty 1 1 ('T' :: []) AiOutcome.parseFailure rfl⟩

/-- Claim C7 counterexample: the claim predicts that a parse failure may
leave an already created paper row with zero questions; at this concrete
input the ingestion with a parse failure shows the error but leaves the
papers table empty, because the paper insert only happens after a successful
parse. -/
theorem c7_counterexample :
    (aiIngestFlow dbEmpty 1 1 ('T' :: []) AiOutcome.parseFailure).1.papers = [] ∧
    (aiIngestFlow dbEmpty 1 1 ('T' :: []) AiOutcome.parseFailure).2 = true := by
  constructor
  · rfl
  · rfl

/-- Claim C8: deleting a paper removes, through the declared cascades, every
questions row and every exam_results row carrying that paper id: after the
deletion both child tables hold zero rows with paper_id P. -/
theorem c8_delete_paper_cascades (db : DB) (P : Nat) :
    (deletePaper db P).questions.filter (fun q => decide (q.paper_id = P)) = [] ∧
    (deletePaper db P).results.filter (fun r => decide (r.paper_id = P)) = [] := by
  constructor
  · exact filter_excluded_eq_nil (fun q => q.paper_id) P db.questions
  · exact filter_excluded_eq_nil (fun r => r.paper_id) P db.results

/-- Claim C1: for every question set and submission map, the scoring engine
computes score as the number of questions whose submitted letter equals the
stored correct_option (a question with no entry counts as incorrect and the
loop never raises), total as the number of questions, and percentage as the
Python round of score over total times one hundred, at two decimals. -/
theorem c1_scoring_engine (pid : Nat) (name : Str) (qs : List Question)
    (ans : AnswerMap) (h : qs.isEmpty = false) :
    student_submit pid name qs ans = SubmitOutcome.saved
      { paper_id := pid
        student_name := name
        score :=
          (qs.filter (fun q => decide (List.lookup q.id ans = some q.correct_option))).length
        total_questions := qs.length
        percentage := pyRound2
          ((((qs.filter
              (fun q => decide (List.lookup q.id ans = some q.correct_option))).length : ℚ) /
            (qs.length : ℚ)) * 100) } := by
  cases qs with
  | nil => simp at h
  | cons q t =>
      show scoring_block pid name (q :: t) ans = _
      unfold scoring_block
      rw [if_neg (by simp)]
      rw [computeScore_eq_filter_length]

/-- Claim C1 witness: the spec scenario, one question with correct option B
and the submission mapping its id to B, yields score 1 of total 1 and
percentage 100. -/
theorem c1_witness :
    (mathQ :: []).isEmpty = false ∧
    student_submit 1 "s".data (mathQ :: []) ((1, "B".data) :: [])
      = SubmitOutcome.saved
        { paper_id := 1
          student_name := "s".data
          score := 1
          total_questions := 1
          percentage := 100 } := by
  constructor
  · rfl
  · have h := c1_scoring_engine 1 "s".data (mathQ :: []) ((1, "B".data) :: []) rfl
    rw [h]
    norm_num [mathQ, List.lookup, List.filter, pyRound2, pyRoundHalfEven]

/-- Claim C9 (amended): the teacher-facing question listing of a paper is
the set of its question rows in ascending id order; the student-facing exam
query carries no ORDER BY and returns the rows of the paper in the physical
order of the table, which need not be ascending in id. -/
theorem c9_teacher_listing_sorted (db : DB) (pid : Nat) :
    idSorted (teacherListQuestions db pid) ∧
    ∀ x : Question,
      x ∈ teacherListQuestions db pid ↔ (x ∈ db.questions ∧ x.paper_id = pid) := by
  constructor
  · exact idSorted_sortById _
  · intro x
    rw [teacherListQuestions, mem_sortById, List.mem_filter]
    simp

/-- Claim C9 counterexample: in a database state whose questions table
physically holds the row with id 2 before the row with id 1 (as after the
row UPDATE at src/app.py line 241 relocates a rewritten row), the
student-facing listing returns ids 2, 1 while its ascending sort is 1, 2:
the student-facing exam rendering is not sorted by id ascending. -/
theorem c9_counterexample :
    studentListQuestions dbOutOfOrder 1 = qRow2 :: qRow1 :: [] ∧
    (studentListQuestions dbOutOfOrder 1).map (fun q => q.id) = 2 :: 1 :: [] ∧
    sortById (studentListQuestions dbOutOfOrder 1) = qRow1 :: qRow2 :: [] := by
  refine ⟨?_, ?_, ?_⟩ <;> decide

/-- Claim C10: the AI ingestion block is one database session holding the
paper insert and all question inserts with a single commit as its final
statement, so a run interrupted by an exception at any statement index
before the end of the list commits nothing: the database is left exactly as
it was. -/
theorem c10_single_commit_atomicity (db : DB) (newId qidBase : Nat) (title : Str)
    (data : List AiRecord) :
    (aiIngestOps newId qidBase title data).countP isCommit = 1 ∧
    (aiIngestOps newId qidBase title data).getLast? = some SessionOp.commitOp ∧
    ∀ k : Nat, k < (aiIngestOps newId qidBase title data).length →
      sessionRunFailAt db (aiIngestOps newId qidBase title data) k = db := by
  refine ⟨?_, ?_, ?_⟩
  · rw [aiIngestOps, List.countP_append]
    rw [List.countP_eq_zero.mpr (fun a ha => by
      rw [aiInsertOps_no_commit newId qidBase title data a ha]
      simp)]
    rfl
  · exact List.getLast?_concat _
  · intro k hk
    have hk2 : k ≤ (aiInsertOps newId qidBase title data).length := by
      rw [aiIngestOps, List.length_append] at hk
      simp only [List.length_cons, List.length_nil] at hk
      omega
    unfold sessionRunFailAt
    rw [aiIngestOps, List.take_append_of_le_length hk2]
    refine runSess_no_commit db _ db ?_
    intro op hop
    exact aiInsertOps_no_commit newId qidBase title data op
      (List.take_subset _ _ hop)

/-- Claim C10 witness: interrupting the concrete one-record ingestion right
after the paper insert leaves the empty database unchanged. -/
theorem c10_witness :
    1 < (aiIngestOps 1 1 ('T' :: []) (recNoCorrectOption :: [])).length ∧
    sessionRunFailAt dbEmpty (aiIngestOps 1 1 ('T' :: []) (recNoCorrectOption :: [])) 1
      = dbEmpty :=
  ⟨by decide,
    (c10_single_commit_atomicity dbEmpty 1 1 ('T' :: [])
      (recNoCorrectOption :: [])).2.2 1 (by decide)⟩

end EdtechMk1
